import Mathlib

/-!
Shallow embedding of the trip-storage core of this repository:

* `src/storage/data/field_registry_model.py` — `FieldRegistryEntry`,
  `FieldRegistry` (type inference cascade, statistics tracker,
  stability classification, recursive document traversal);
* `src/storage/data/trip_model.py` — the `Trip` aggregate and its
  mutators and derived accessors;
* `src/storage/dynamodb/trips.py` — `TripsService.create_trip` /
  `update_trip` over a DynamoDB table modelled as an association list.

Python values are modelled by the inductive type `PyVal`; machine floats
are modelled by `ℚ` (the numeric reasoning in this development is exact
division, re-done in the rationals); Python exceptions are modelled by
`Except PyErr`.  Wall-clock timestamps (`DynamoDBHelper.current_timestamp`)
are threaded through the mutating operations as an explicit `now : String`
argument.  String predicates model the source's regexes on the ASCII
strings the program manipulates; `re.match` anchors at the start only, so
patterns without a trailing dollar are prefix matches.
-/

namespace AgenticMVP

/-- Python exception kinds raised by the modelled code paths. -/
inductive PyErr where
  | zeroDivisionError : PyErr
  | typeError : PyErr
deriving DecidableEq, Repr

deriving instance DecidableEq for Except

/-- Python `str.lower` on the ASCII strings the program manipulates,
written charwise so that concrete instances evaluate. -/
def lowerStr (s : String) : String :=
  String.mk (s.toList.map Char.toLower)

/-- Python `str.upper` on the ASCII strings the program manipulates. -/
def upperStr (s : String) : String :=
  String.mk (s.toList.map Char.toUpper)

/-- Python `str.split(sep)` for a one-character separator. -/
def splitOnChar (sep : Char) : List Char → List (List Char)
  | [] => [[]]
  | c :: cs =>
      let r := splitOnChar sep cs
      if c = sep then [] :: r
      else match r with
        | [] => [[c]]
        | h :: t => (c :: h) :: t

/-- Python `str.replace(pat, repl)` for a non-empty pattern: left-to-right,
non-overlapping.  The fuel argument (instantiated with the string length,
an upper bound on the number of steps) only makes the recursion structural. -/
def replaceList (pat repl : List Char) : Nat → List Char → List Char
  | 0, cs => cs
  | _ + 1, [] => []
  | fuel + 1, c :: cs =>
      if pat ≠ [] ∧ pat.isPrefixOf (c :: cs) then
        repl ++ replaceList pat repl fuel ((c :: cs).drop pat.length)
      else c :: replaceList pat repl fuel cs

/-- Python `str.replace` (non-empty pattern, as at every call site). -/
def pyReplace (s pat repl : String) : String :=
  String.mk (replaceList pat.toList repl.toList s.toList.length s.toList)

/-- Python `", ".join` used by the container reprs. -/
def joinCommaSep : List String → String
  | [] => ""
  | [s] => s
  | s :: rest => s ++ ", " ++ joinCommaSep rest

/-- Change entry dataclass from trip_model.py (`ChangeEntry`).  It appears
inside `PyVal` because `Trip.get_flight_segments` stores `ChangeEntry`
objects back into the nested extension data in place. -/
inductive PyVal where
  | pyStr : String → PyVal
  | pyInt : Int → PyVal
  | pyRat : ℚ → PyVal
  | pyBool : Bool → PyVal
  | pyNone : PyVal
  | pyList : List PyVal → PyVal
  | pyDict : List (String × PyVal) → PyVal
  | pyChangeEntry : PyVal → PyVal → PyVal → PyVal → PyVal → PyVal → PyVal

namespace PyVal

mutual

/-- Python `repr` of a value, as used inside container `str` forms.  Strings
are single-quoted (none of the strings this development evaluates contain
quote characters).  `pyRat` models floats/Decimals; the modelled operations
never take the string form of one. -/
def pyRepr : PyVal → String
  | pyStr s => "'" ++ s ++ "'"
  | pyInt n => toString n
  | pyRat q => toString q
  | pyBool b => if b then "True" else "False"
  | pyNone => "None"
  | pyList vs => "[" ++ joinCommaSep (pyReprItems vs) ++ "]"
  | pyDict kvs => "\x7b" ++ joinCommaSep (pyReprPairs kvs) ++ "\x7d"
  | pyChangeEntry ct ca sd pv cr cs =>
      "ChangeEntry(change_type=" ++ pyRepr ct ++ ", changed_at=" ++ pyRepr ca ++
      ", source_document_id=" ++ pyRepr sd ++ ", previous_values=" ++ pyRepr pv ++
      ", change_reason=" ++ pyRepr cr ++ ", confidence_score=" ++ pyRepr cs ++ ")"

/-- Reprs of the elements of a list value. -/
def pyReprItems : List PyVal → List String
  | [] => []
  | v :: vs => pyRepr v :: pyReprItems vs

/-- Reprs of the key/value pairs of a dict value. -/
def pyReprPairs : List (String × PyVal) → List String
  | [] => []
  | (k, v) :: kvs => ("'" ++ k ++ "': " ++ pyRepr v) :: pyReprPairs kvs

end

/-- Python `str` of a value: a string is itself, everything else is its repr. -/
def pyToStr : PyVal → String
  | pyStr s => s
  | v => pyRepr v

end PyVal

/-- Python `str.strip` whitespace set (ASCII part). -/
def isPySpace (c : Char) : Bool :=
  c = ' ' || c = '\t' || c = '\n' || c = '\r' || c = '\x0b' || c = '\x0c'

/-- Python `str.strip()` on a character list. -/
def pyStripList (cs : List Char) : List Char :=
  ((cs.dropWhile isPySpace).reverse.dropWhile isPySpace).reverse

/-- Python `str.strip()`. -/
def pyStrip (s : String) : String :=
  String.mk (pyStripList s.toList)

/-- Character class of the local part of the email regex
`[a-zA-Z0-9._%+-]`. -/
def isEmailLocalChar (c : Char) : Bool :=
  c.isAlpha || c.isDigit || c = '.' || c = '_' || c = '%' || c = '+' || c = '-'

/-- Character class of the domain part of the email regex `[a-zA-Z0-9.-]`. -/
def isEmailDomainChar (c : Char) : Bool :=
  c.isAlpha || c.isDigit || c = '.' || c = '-'

/-- Domain tail check for the email regex: the remaining characters split as
`A ++ "." ++ B` with `A` nonempty over the domain class, `B` only letters and
at least two of them (the regex engine backtracks over the dot position, so
the match succeeds if any split works).  `seenDomainChar` records whether a
nonempty `A` prefix has been consumed so far. -/
def emailDomainTail : List Char → Bool → Bool
  | [], _ => false
  | c :: cs, seenDomainChar =>
      (c = '.' && seenDomainChar && cs.length ≥ 2 && cs.all Char.isAlpha) ||
      (isEmailDomainChar c && emailDomainTail cs true)

/-- Email regex from `FieldRegistryEntry._is_email`:
`[a-zA-Z0-9._%+-]+@[a-zA-Z0-9.-]+\.[a-zA-Z]\x7b2,\x7d` anchored at both ends.
The at-sign is not in the local class, so the local/domain split is at the
first at-sign. -/
def isEmailStr (s : String) : Bool :=
  let cs := s.toList
  match cs.findIdx? (· = '@') with
  | none => false
  | some i =>
      let localPart := cs.take i
      let domain := cs.drop (i + 1)
      localPart.length ≥ 1 && localPart.all isEmailLocalChar && emailDomainTail domain false

/-- Take exactly `n` digits from the front, returning the rest. -/
def takeDigits : Nat → List Char → Option (List Char)
  | 0, cs => some cs
  | _ + 1, [] => none
  | n + 1, c :: cs => if c.isDigit then takeDigits n cs else none

/-- Consume one literal character. -/
def takeChar (c : Char) : List Char → Option (List Char)
  | [] => none
  | d :: cs => if d = c then some cs else none

/-- Consume all leading regex whitespace (the source patterns always follow
a whitespace star with a digit, so the greedy match is deterministic). -/
def skipSpaces (cs : List Char) : List Char :=
  cs.dropWhile isPySpace

/-- Consume at least one whitespace character, then the rest. -/
def takeSpaces1 (cs : List Char) : Option (List Char) :=
  match cs with
  | c :: rest => if isPySpace c then some (skipSpaces rest) else none
  | [] => none

/-- Phone regex 1: `\d\x7b3\x7d-\d\x7b3\x7d-\d\x7b4\x7d` fully anchored. -/
def isPhone1 (cs : List Char) : Bool :=
  (do
    let r ← takeDigits 3 cs
    let r ← takeChar '-' r
    let r ← takeDigits 3 r
    let r ← takeChar '-' r
    let r ← takeDigits 4 r
    pure r).elim false List.isEmpty

/-- Phone regex 2: `\(\d\x7b3\x7d\)\s*\d\x7b3\x7d-\d\x7b4\x7d` fully anchored. -/
def isPhone2 (cs : List Char) : Bool :=
  (do
    let r ← takeChar '(' cs
    let r ← takeDigits 3 r
    let r ← takeChar ')' r
    let r := skipSpaces r
    let r ← takeDigits 3 r
    let r ← takeChar '-' r
    let r ← takeDigits 4 r
    pure r).elim false List.isEmpty

/-- Phone regex 3: `\d\x7b3\x7d\.\d\x7b3\x7d\.\d\x7b4\x7d` fully anchored. -/
def isPhone3 (cs : List Char) : Bool :=
  (do
    let r ← takeDigits 3 cs
    let r ← takeChar '.' r
    let r ← takeDigits 3 r
    let r ← takeChar '.' r
    let r ← takeDigits 4 r
    pure r).elim false List.isEmpty

/-- Phone regex 4: `\+\d\x7b1,3\x7d\s*\d\x7b3,4\x7d\s*\d\x7b3,4\x7d\s*\d\x7b3,4\x7d`
fully anchored.  The counted digit groups may abut (the whitespace stars can
be empty), so the engine backtracks over the group sizes; this is modelled
by trying every combination of admissible sizes. -/
def isPhone4 (cs : List Char) : Bool :=
  match cs with
  | '+' :: rest =>
      [1, 2, 3].any (fun a =>
        [3, 4].any (fun b =>
          [3, 4].any (fun c =>
            [3, 4].any (fun d =>
              (do
                let r ← takeDigits a rest
                let r := skipSpaces r
                let r ← takeDigits b r
                let r := skipSpaces r
                let r ← takeDigits c r
                let r := skipSpaces r
                let r ← takeDigits d r
                pure r).elim false List.isEmpty))))
  | _ => false

/-- Phone check from `FieldRegistryEntry._is_phone`. -/
def isPhoneStr (s : String) : Bool :=
  isPhone1 s.toList || isPhone2 s.toList || isPhone3 s.toList || isPhone4 s.toList

/-- Airport-code check from `FieldRegistryEntry._is_airport_code`:
`len(value) == 3 and value.isalpha() and value.isupper()`. -/
def isAirportCodeStr (s : String) : Bool :=
  s.toList.length = 3 && s.toList.all Char.isAlpha && s.toList.all Char.isUpper

/-- Confirmation-code check from `FieldRegistryEntry._is_confirmation_code`:
alphanumeric, length 4–8, with at least one letter and one digit. -/
def isConfirmationCodeStr (s : String) : Bool :=
  4 ≤ s.toList.length && s.toList.length ≤ 8 &&
  s.toList.all (fun c => c.isAlpha || c.isDigit) && s.toList ≠ [] &&
  s.toList.any Char.isAlpha && s.toList.any Char.isDigit

/-- Amount part `\d+(\.\d\x7b2\x7d)?` of the currency regexes: the possible
rests after consuming it (with and without the optional cents group, since
the engine backtracks over the optional group). -/
def currencyAmountRests (cs : List Char) : List (List Char) :=
  let digits := cs.takeWhile Char.isDigit
  let rest := cs.dropWhile Char.isDigit
  if digits.isEmpty then []
  else
    match takeChar '.' rest with
    | none => [rest]
    | some r =>
        match takeDigits 2 r with
        | none => [rest]
        | some r2 => [r2, rest]

/-- Currency suffix words `USD|EUR|GBP|CAD`, compared case-insensitively
(the source compiles the patterns with `re.IGNORECASE`). -/
def isCurrencyWord (cs : List Char) : Bool :=
  let u := upperStr (String.mk cs)
  u = "USD" || u = "EUR" || u = "GBP" || u = "CAD"

/-- Currency check from `FieldRegistryEntry._is_currency`: a dollar-sign
amount, an amount followed by an ISO currency word, or a bare amount. -/
def isCurrencyStr (s : String) : Bool :=
  let cs := s.toList
  (match cs with
   | '$' :: rest => (currencyAmountRests rest).any List.isEmpty
   | _ => false) ||
  (currencyAmountRests cs).any (fun r =>
    let r' := skipSpaces r
    r'.length ≥ 1 && isCurrencyWord r') ||
  (currencyAmountRests cs).any List.isEmpty

/-- Take between one and two digits followed by the literal `sep`; used for
`\d\x7b1,2\x7d` groups whose follower is a non-digit literal, where greedy
matching with backtracking is equivalent to requiring the whole digit run to
have length one or two. -/
def takeShortRun (sep : Char) (cs : List Char) : Option (List Char) :=
  let run := cs.takeWhile Char.isDigit
  let rest := cs.dropWhile Char.isDigit
  if (run.length = 1 || run.length = 2) then takeChar sep rest else none

/-- Date regex 1: `\d\x7b4\x7d-\d\x7b2\x7d-\d\x7b2\x7d` fully anchored. -/
def isDate1 (cs : List Char) : Bool :=
  (do
    let r ← takeDigits 4 cs
    let r ← takeChar '-' r
    let r ← takeDigits 2 r
    let r ← takeChar '-' r
    let r ← takeDigits 2 r
    pure r).elim false List.isEmpty

/-- Date regexes 2 and 3: `\d\x7b1,2\x7d/\d\x7b1,2\x7d/\d\x7b4\x7d` and the
same with dashes, fully anchored. -/
def isDateSlashed (sep : Char) (cs : List Char) : Bool :=
  (do
    let r ← takeShortRun sep cs
    let r ← takeShortRun sep r
    let r ← takeDigits 4 r
    pure r).elim false List.isEmpty

/-- Date regex 4: `[A-Za-z]\x7b3,9\x7d\s+\d\x7b1,2\x7d,?\s+\d\x7b4\x7d` fully
anchored (month-name style). -/
def isDateMonthName (cs : List Char) : Bool :=
  let letters := cs.takeWhile Char.isAlpha
  let rest := cs.dropWhile Char.isAlpha
  (3 ≤ letters.length && letters.length ≤ 9 &&
    (do
      let r ← takeSpaces1 rest
      let run := r.takeWhile Char.isDigit
      let r' := r.dropWhile Char.isDigit
      if run.length = 1 || run.length = 2 then
        let r'' := match takeChar ',' r' with | some x => x | none => r'
        let r3 ← takeSpaces1 r''
        let r4 ← takeDigits 4 r3
        pure r4
      else none).elim false List.isEmpty)

/-- Date check from `FieldRegistryEntry._is_date`. -/
def isDateStr (s : String) : Bool :=
  isDate1 s.toList || isDateSlashed '/' s.toList || isDateSlashed '-' s.toList ||
  isDateMonthName s.toList

/-- Datetime regex 1/2: `\d\x7b4\x7d-\d\x7b2\x7d-\d\x7b2\x7d` then `T` or
whitespace then `\d\x7b2\x7d:\d\x7b2\x7d:\d\x7b2\x7d`; prefix matches (the
source patterns carry no end anchor, and `re.match` anchors only the start). -/
def isDatetimeIso (cs : List Char) : Bool :=
  (do
    let r ← takeDigits 4 cs
    let r ← takeChar '-' r
    let r ← takeDigits 2 r
    let r ← takeChar '-' r
    let r ← takeDigits 2 r
    let r ← match takeChar 'T' r with
            | some x => some x
            | none => takeSpaces1 r
    let r ← takeDigits 2 r
    let r ← takeChar ':' r
    let r ← takeDigits 2 r
    let r ← takeChar ':' r
    let r ← takeDigits 2 r
    pure r).isSome

/-- Datetime regex 3: `\d\x7b1,2\x7d/\d\x7b1,2\x7d/\d\x7b4\x7d\s+\d\x7b1,2\x7d:\d\x7b2\x7d`,
a prefix match. -/
def isDatetimeSlashed (cs : List Char) : Bool :=
  (do
    let r ← takeShortRun '/' cs
    let r ← takeShortRun '/' r
    let r ← takeDigits 4 r
    let r ← takeSpaces1 r
    let r ← takeShortRun ':' r
    let r ← takeDigits 2 r
    pure r).isSome

/-- Datetime check from `FieldRegistryEntry._is_datetime`. -/
def isDatetimeStr (s : String) : Bool :=
  isDatetimeIso s.toList || isDatetimeSlashed s.toList

/-- One digit, then any run of digits possibly separated by single
underscores (Python numeric literals accept underscores between digits);
returns the rest. -/
def takeDigitsU : List Char → Option (List Char)
  | c :: cs =>
      if c.isDigit then
        some (go cs)
      else none
  | [] => none
where
  go : List Char → List Char
    | c :: cs =>
        if c.isDigit then go cs
        else match c, cs with
          | '_', d :: ds => if d.isDigit then go ds else '_' :: d :: ds
          | _, _ => c :: cs
    | [] => []

/-- Mantissa of a Python float literal: `digits [. [digits]]` or `. digits`. -/
def floatMantissa (cs : List Char) : Option (List Char) :=
  match takeDigitsU cs with
  | some r =>
      match takeChar '.' r with
      | some r' => some ((takeDigitsU r').getD r')
      | none => some r
  | none =>
      match takeChar '.' cs with
      | some r => takeDigitsU r
      | none => none

/-- Full Python `float(value)` parse on an already-stripped string: optional
sign, then `inf`/`infinity`/`nan` (case-insensitive) or a mantissa with an
optional exponent. -/
def isNumberStr (s : String) : Bool :=
  let cs := s.toList
  let cs := match cs with
    | '+' :: r => r
    | '-' :: r => r
    | r => r
  let lower := lowerStr (String.mk cs)
  lower = "inf" || lower = "infinity" || lower = "nan" ||
  ((floatMantissa cs).elim false (fun r =>
    match r with
    | [] => true
    | e :: r' =>
        if e = 'e' || e = 'E' then
          let r'' := match r' with
            | '+' :: x => x
            | '-' :: x => x
            | x => x
          (takeDigitsU r'').elim false List.isEmpty
        else false))

/-- Boolean check from `FieldRegistryEntry._is_boolean`:
`value.lower() in ['true', 'false', 'yes', 'no', '1', '0']`. -/
def isBooleanStr (s : String) : Bool :=
  let l := lowerStr s
  l = "true" || l = "false" || l = "yes" || l = "no" || l = "1" || l = "0"

/-- Type-inference cascade from `FieldRegistryEntry._infer_data_type`:
returns the `(data_type, type_confidence)` the call would assign, or `none`
when `value is None` (in which case the source returns without assigning).
The pattern checks run in source order on the stripped string form; the
structural list/dict checks come after every string pattern. -/
def inferDataType (value : PyVal) : Option (String × ℚ) :=
  match value with
  | PyVal.pyNone => none
  | _ =>
    let sv := pyStrip (PyVal.pyToStr value)
    if isEmailStr sv then some ("email", 9/10)
    else if isPhoneStr sv then some ("phone", 8/10)
    else if isAirportCodeStr sv then some ("airport_code", 9/10)
    else if isConfirmationCodeStr sv then some ("confirmation_code", 7/10)
    else if isCurrencyStr sv then some ("currency", 8/10)
    else if isDateStr sv then some ("date", 8/10)
    else if isDatetimeStr sv then some ("datetime", 9/10)
    else if isNumberStr sv then some ("number", 9/10)
    else if isBooleanStr sv then some ("boolean", 9/10)
    else match value with
      | PyVal.pyList _ => some ("array", 1)
      | PyVal.pyDict _ => some ("object", 1)
      | _ => some ("string", 6/10)

/-- Example value attached to a field (`FieldExample` dataclass). -/
structure FieldExample where
  value : String
  source_document_id : String
  extracted_at : String
deriving DecidableEq, Repr

/-- Per-field running statistics (`FieldStatistics` dataclass).
`unique_values_count` is declared by the source but never updated. -/
structure FieldStatistics where
  min_length : Option Nat := none
  max_length : Option Nat := none
  avg_length : Option ℚ := none
  unique_values_count : Nat := 0
  most_common_values : List String := []
deriving DecidableEq, Repr

/-- Statistics update from `FieldRegistryEntry._update_statistics`.  The
argument `occCount` is `self.occurrence_count`, which the caller
(`add_occurrence`) has already incremented, so it is at least 1 at every
call site.  An empty value returns the statistics unchanged (the source
starts with `if not value: return`). -/
def updateStatistics (st : FieldStatistics) (value : String) (occCount : Nat) :
    FieldStatistics :=
  if value = "" then st
  else
    let len := value.length
    let st := { st with
      min_length := match st.min_length with
        | none => some len
        | some m => if len < m then some len else some m
      max_length := match st.max_length with
        | none => some len
        | some m => if len > m then some len else some m
      avg_length := match st.avg_length with
        | none => some (len : ℚ)
        | some a => some ((a * ((occCount : ℚ) - 1) + (len : ℚ)) / (occCount : ℚ)) }
    if value ∉ st.most_common_values ∧ st.most_common_values.length < 10 then
      { st with most_common_values := st.most_common_values ++ [value] }
    else st

/-- One discovered field (`FieldRegistryEntry`).  The bookkeeping members
the modelled operations never touch (`related_fields`, `parent_field`,
`child_fields`, `validation_rules`, `validation_patterns`,
`custom_metadata`) are omitted; everything `add_occurrence` and the
registry read or write is present. -/
structure FieldRegistryEntry where
  field_id : String
  path : String
  field_name : String
  data_type : String
  inferred_type : String
  type_confidence : ℚ
  source_namespace : String
  first_seen : String
  last_seen : String
  occurrence_count : Nat
  total_documents : Nat
  occurrence_percentage : ℚ
  description : String
  is_required : Bool
  is_indexed : Bool
  is_searchable : Bool
  examples : List FieldExample
  statistics : FieldStatistics
  tags : List String
  stability : String
deriving DecidableEq, Repr

/-- Stability reclassification from `FieldRegistryEntry._update_stability`. -/
def updateStability (e : FieldRegistryEntry) : FieldRegistryEntry :=
  { e with stability :=
      if e.occurrence_percentage ≥ 80 then "stable"
      else if e.occurrence_percentage ≥ 40 then "common"
      else if e.occurrence_percentage ≥ 10 then "occasional"
      else "rare" }

/-- Field-name extraction from `FieldRegistryEntry._extract_field_name`. -/
def extractFieldName (path : String) : String :=
  if path = "" then "unknown"
  else
    let p := pyReplace (pyReplace (pyReplace path "[0]" "[]") "[1]" "[]") "[2]" "[]"
    ((splitOnChar '.' p.toList).map String.mk).getLastD p

/-- Fresh entry as built by the `FieldRegistryEntry` constructor when
`FieldRegistry.register_field` creates it (keyword arguments `field_id`,
`path`, `source_namespace`, `description`; everything else defaulted, and
`_update_stability` run at the end on the zero percentage). -/
def newEntry (field_id path namespace_ description now : String) :
    FieldRegistryEntry :=
  updateStability
    { field_id := field_id
      path := path
      field_name := extractFieldName path
      data_type := "unknown"
      inferred_type := "unknown"
      type_confidence := 0
      source_namespace := namespace_
      first_seen := now
      last_seen := now
      occurrence_count := 0
      total_documents := 0
      occurrence_percentage := 0
      description := description
      is_required := false
      is_indexed := false
      is_searchable := true
      examples := []
      statistics := {}
      tags := []
      stability := "rare" }

/-- Occurrence recording from `FieldRegistryEntry.add_occurrence`, in source
order: bump `occurrence_count` and `last_seen`; when a total is supplied,
store it and recompute `occurrence_percentage` (a Python division that
raises `ZeroDivisionError` when the total is zero); append an example while
fewer than five are stored; update statistics on the string form; update
stability; finally run type inference only while the type is `unknown`. -/
def addOccurrence (e : FieldRegistryEntry) (document_id : String)
    (value : PyVal) (total_docs : Option Nat) (now : String) :
    Except PyErr FieldRegistryEntry := do
  let e := { e with occurrence_count := e.occurrence_count + 1, last_seen := now }
  let e ← match total_docs with
    | none => pure e
    | some t =>
        if t = 0 then throw PyErr.zeroDivisionError
        else pure { e with
          total_documents := t
          occurrence_percentage := ((e.occurrence_count : ℚ) / (t : ℚ)) * 100 }
  let e := if e.examples.length < 5 then
      { e with examples := e.examples ++
          [⟨PyVal.pyToStr value, document_id, now⟩] }
    else e
  let e := { e with
    statistics := updateStatistics e.statistics (PyVal.pyToStr value) e.occurrence_count }
  let e := updateStability e
  let e := if e.data_type = "unknown" then
      match inferDataType value with
      | none => e
      | some (t, c) => { e with data_type := t, type_confidence := c }
    else e
  pure e

/-- Lookup in an insertion-ordered association list (the model of Python
dict access). -/
def assocGet {β : Type} (k : String) : List (String × β) → Option β
  | [] => none
  | (k', e) :: rest => if k' = k then some e else assocGet k rest

/-- In-place update of an association-list binding, keeping insertion order
(assignment to an existing Python dict key). -/
def assocSet {β : Type} (k : String) (v : β) :
    List (String × β) → List (String × β)
  | [] => []
  | (k', e) :: rest =>
      if k' = k then (k', v) :: rest else (k', e) :: assocSet k v rest

/-- Python dict assignment `d[k] = v`: update the binding in place when the
key exists, otherwise append it. -/
def assocPut {β : Type} (k : String) (v : β) (l : List (String × β)) :
    List (String × β) :=
  if (assocGet k l).isSome then assocSet k v l else l ++ [(k, v)]

/-- Catalog of entries keyed by field path (`FieldRegistry`).  The Python
dict and set are modelled by insertion-ordered duplicate-free lists. -/
structure FieldRegistry where
  fields : List (String × FieldRegistryEntry)
  namespaces : List String
  total_documents_processed : Nat
deriving DecidableEq, Repr

/-- Freshly constructed registry (`FieldRegistry.__init__`). -/
def emptyRegistry : FieldRegistry :=
  { fields := [], namespaces := [], total_documents_processed := 0 }

/-- Field-occurrence registration from `FieldRegistry.register_field`:
create the entry on first sight of the path, record the occurrence passing
the current `total_documents_processed` as the percentage denominator, and
track the namespace.  The `ZeroDivisionError` of `add_occurrence` at a zero
total propagates. -/
def registerField (r : FieldRegistry) (path : String) (value : PyVal)
    (document_id namespace_ description now : String) :
    Except PyErr FieldRegistry := do
  let field_id := path
  let fields :=
    if (assocGet field_id r.fields).isNone then
      r.fields ++ [(field_id, newEntry field_id path namespace_ description now)]
    else r.fields
  match assocGet field_id fields with
  | none => pure r
  | some e => do
      let e' ← addOccurrence e document_id value (some r.total_documents_processed) now
      let namespaces :=
        if namespace_ ≠ "" ∧ namespace_ ∉ r.namespaces then
          r.namespaces ++ [namespace_]
        else r.namespaces
      pure { r with fields := assocSet field_id e' fields, namespaces := namespaces }

/-- Array branch of the traversal in `register_document_fields`: for a
non-empty list whose first element is a dict, each key of that first
element is registered as a leaf under the bracket-normalized path; later
elements are never inspected, and nothing recurses deeper. -/
def registerHeadItems (r : FieldRegistry) (items : List (String × PyVal))
    (pre ns document_id now : String) : Except PyErr FieldRegistry := do
  match items with
  | [] => pure r
  | (key, value) :: rest => do
      let field_path := if pre = "" then "[]." ++ key else pre ++ "[]." ++ key
      let r ← registerField r field_path value document_id ns "" now
      registerHeadItems r rest pre ns document_id now

mutual

/-- Recursive traversal from the inner `register_nested_fields` closure of
`FieldRegistry.register_document_fields`: dict keys extend the dotted path
(containers are registered themselves and then recursed into, leaves are
registered directly); a non-empty list samples only its first element; any
other value registers nothing. -/
def registerNested (r : FieldRegistry) (data : PyVal)
    (pre ns document_id now : String) : Except PyErr FieldRegistry :=
  match data with
  | PyVal.pyDict items => registerDictItems r items pre ns document_id now
  | PyVal.pyList (h :: _) =>
      match h with
      | PyVal.pyDict items => registerHeadItems r items pre ns document_id now
      | _ => pure r
  | _ => pure r

/-- Loop over the key/value pairs of a dict in the traversal.  The
namespace of a field is the enclosing namespace, or the key itself for a
first-level key (`namespace or (key if not prefix else namespace)`). -/
def registerDictItems (r : FieldRegistry) (items : List (String × PyVal))
    (pre ns document_id now : String) : Except PyErr FieldRegistry :=
  match items with
  | [] => pure r
  | (key, value) :: rest => do
      let field_path := if pre = "" then key else pre ++ "." ++ key
      let current_namespace := if ns = "" ∧ pre = "" then key else ns
      match value with
      | PyVal.pyDict _ => do
          let r ← registerField r field_path value document_id current_namespace "" now
          let r ← registerNested r value field_path current_namespace document_id now
          registerDictItems r rest pre ns document_id now
      | PyVal.pyList _ => do
          let r ← registerField r field_path value document_id current_namespace "" now
          let r ← registerNested r value field_path current_namespace document_id now
          registerDictItems r rest pre ns document_id now
      | _ => do
          let r ← registerField r field_path value document_id current_namespace "" now
          registerDictItems r rest pre ns document_id now

end

/-- Loop body of `FieldRegistry._update_all_percentages` for one entry:
when the corpus is non-empty, recompute the percentage against the current
total and refresh stability. -/
def refreshEntry (total : Nat) (e : FieldRegistryEntry) : FieldRegistryEntry :=
  if total > 0 then
    updateStability { e with occurrence_percentage :=
      ((e.occurrence_count : ℚ) / (total : ℚ)) * 100 }
  else e

/-- Whole-catalog rescan from `FieldRegistry._update_all_percentages`:
every entry's percentage is recomputed against the current
`total_documents_processed` and its stability refreshed. -/
def updateAllPercentages (r : FieldRegistry) : FieldRegistry :=
  { r with fields := r.fields.map (fun ke =>
      (ke.1, refreshEntry r.total_documents_processed ke.2)) }

/-- Document ingestion from `FieldRegistry.register_document_fields`:
bump the corpus size, traverse the document, then rescan the whole
catalog. -/
def registerDocumentFields (r : FieldRegistry) (document_data : PyVal)
    (document_id now : String) : Except PyErr FieldRegistry := do
  let r := { r with
    total_documents_processed := r.total_documents_processed + 1 }
  let r ← registerNested r document_data "" "" document_id now
  pure (updateAllPercentages r)

/-- Sequential ingestion of a list of `(document, document_id)` pairs. -/
def ingestAll (r : FieldRegistry) (now : String) :
    List (PyVal × String) → Except PyErr FieldRegistry
  | [] => pure r
  | (d, did) :: rest => do
      let r' ← registerDocumentFields r d did now
      ingestAll r' now rest

/-- Traveler dataclass from trip_model.py. -/
structure Traveler where
  id : String
  name : String
  email : String
  phone : Option String
deriving DecidableEq, Repr

/-- Source-document provenance row (`SourceDocument` dataclass). -/
structure SourceDocument where
  document_id : String
  type : String
  confidence_score : ℚ
  extracted_at : String
  contributed_fields : List String
deriving DecidableEq, Repr

/-- Version-history row (`VersionEntry` dataclass). -/
structure VersionEntry where
  version : Nat
  timestamp : String
  document_id : String
  change_type : String
  changed_fields : List String
deriving DecidableEq, Repr

/-- Merge-candidate row (`MergeCandidate` dataclass). -/
structure MergeCandidate where
  trip_id : String
  similarity_score : ℚ
  match_reasons : List String
deriving DecidableEq, Repr

/-- Flight segment (`FlightSegment` dataclass).  Python dataclasses do not
check field types at construction, so every member is a raw value. -/
structure FlightSegment where
  segment_id : PyVal
  version : PyVal
  status : PyVal
  flight_number : PyVal
  departure : PyVal
  arrival : PyVal
  change_history : PyVal
  seat : PyVal
  fare_class : PyVal

/-- Trip aggregate (`Trip`).  A `traveler` of `none` models the empty-dict
default of the constructor.  `start_date`, `end_date` and `purpose` default
to Python `None`. -/
structure Trip where
  trip_id : String
  version : Nat
  created_at : String
  updated_at : String
  traveler : Option Traveler
  status : String
  start_date : PyVal
  end_date : PyVal
  purpose : PyVal
  origin_type : String
  trip_confidence : ℚ
  extensions : List (String × PyVal)
  source_documents : List SourceDocument
  version_history : List VersionEntry
  merge_candidates : List MergeCandidate

/-- Freshly created trip: `Trip.__init__` with a trip id and no keyword
arguments.  Note that the constructor builds `version = 1` but an EMPTY
version history — no `creation` entry is appended anywhere in it. -/
def mkTrip (trip_id now : String) : Trip :=
  { trip_id := trip_id
    version := 1
    created_at := now
    updated_at := now
    traveler := none
    status := "confirmed"
    start_date := PyVal.pyNone
    end_date := PyVal.pyNone
    purpose := PyVal.pyNone
    origin_type := "explicit"
    trip_confidence := 1
    extensions := []
    source_documents := []
    version_history := []
    merge_candidates := [] }

/-- Extension write from `Trip.add_extension`: overwrite-or-insert into the
extensions map and bump `updated_at`.  It touches neither `version` nor
`version_history`. -/
def addExtension (t : Trip) (namespace_ : String) (data : PyVal)
    (now : String) : Trip :=
  { t with extensions := assocPut namespace_ data t.extensions, updated_at := now }

/-- Provenance append from `Trip.add_source_document`: append and bump
`updated_at`; no version change. -/
def addSourceDocument (t : Trip) (doc : SourceDocument) (now : String) : Trip :=
  { t with source_documents := t.source_documents ++ [doc], updated_at := now }

/-- Version bump from `Trip.add_version_entry`: increment `version`, append
a history row carrying the new version, bump `updated_at`. -/
def addVersionEntry (t : Trip) (document_id change_type : String)
    (changed_fields : List String) (now : String) : Trip :=
  let v := t.version + 1
  { t with
    version := v
    version_history := t.version_history ++
      [{ version := v, timestamp := now, document_id := document_id
         change_type := change_type, changed_fields := changed_fields }]
    updated_at := now }

/-- Merge-candidate append from `Trip.add_merge_candidate`. -/
def addMergeCandidate (t : Trip) (c : MergeCandidate) (now : String) : Trip :=
  { t with merge_candidates := t.merge_candidates ++ [c], updated_at := now }

/-- Merge-candidate filter from `Trip.remove_merge_candidate`. -/
def removeMergeCandidate (t : Trip) (trip_id : String) (now : String) : Trip :=
  { t with
    merge_candidates := t.merge_candidates.filter (fun c => c.trip_id != trip_id),
    updated_at := now }

/-- One mutating call on a trip, for stating version-monotonicity over
call sequences. -/
inductive TripMutation where
  | extension : String → PyVal → TripMutation
  | sourceDocument : SourceDocument → TripMutation
  | versionEntry : String → String → List String → TripMutation

/-- Apply one mutating call. -/
def applyMutation (t : Trip) (now : String) : TripMutation → Trip
  | TripMutation.extension ns data => addExtension t ns data now
  | TripMutation.sourceDocument doc => addSourceDocument t doc now
  | TripMutation.versionEntry did ct cf => addVersionEntry t did ct cf now

/-- Apply a sequence of mutating calls in order. -/
def applyMutations (t : Trip) (now : String) : List TripMutation → Trip
  | [] => t
  | m :: ms => applyMutations (applyMutation t now m) now ms

/-- Count of the `add_version_entry` calls in a sequence. -/
def countVersionEntryCalls : List TripMutation → Nat
  | [] => 0
  | TripMutation.versionEntry _ _ _ :: ms => countVersionEntryCalls ms + 1
  | _ :: ms => countVersionEntryCalls ms

/-- Python iteration `for x in v`: the elements a value yields, or `none`
when the value is not iterable (`TypeError`).  A dict yields its keys and a
string its characters. -/
def pyIterate : PyVal → Option (List PyVal)
  | PyVal.pyList l => some l
  | PyVal.pyDict kvs => some (kvs.map (fun kv => PyVal.pyStr kv.1))
  | PyVal.pyStr s => some (s.toList.map (fun c => PyVal.pyStr (String.mk [c])))
  | _ => none

/-- Keyword-argument construction `ChangeEntry(**change)`: the five
required dataclass fields must be present and no unexpected keyword is
accepted (`TypeError` otherwise). -/
def mkChangeEntry (d : List (String × PyVal)) : Except PyErr PyVal :=
  if d.all (fun kv => kv.1 ∈ ["change_type", "changed_at", "source_document_id",
      "previous_values", "change_reason", "confidence_score"]) then
    match assocGet "change_type" d, assocGet "changed_at" d,
        assocGet "source_document_id" d, assocGet "previous_values" d,
        assocGet "change_reason" d with
    | some ct, some ca, some sd, some pv, some cr =>
        Except.ok (PyVal.pyChangeEntry ct ca sd pv cr
          ((assocGet "confidence_score" d).getD PyVal.pyNone))
    | _, _, _, _, _ => Except.error PyErr.typeError
  else Except.error PyErr.typeError

/-- Keyword-argument construction `FlightSegment(**segment_data)`:
`TypeError` on a missing required field or an unexpected keyword. -/
def mkFlightSegment (d : List (String × PyVal)) : Except PyErr FlightSegment :=
  if d.all (fun kv => kv.1 ∈ ["segment_id", "version", "status", "flight_number",
      "departure", "arrival", "change_history", "seat", "fare_class"]) then
    match assocGet "segment_id" d, assocGet "version" d, assocGet "status" d,
        assocGet "flight_number" d, assocGet "departure" d, assocGet "arrival" d with
    | some si, some v, some st, some fn, some dep, some arr =>
        Except.ok
          { segment_id := si, version := v, status := st, flight_number := fn
            departure := dep, arrival := arr
            change_history := (assocGet "change_history" d).getD (PyVal.pyList [])
            seat := (assocGet "seat" d).getD PyVal.pyNone
            fare_class := (assocGet "fare_class" d).getD PyVal.pyNone }
    | _, _, _, _, _, _ => Except.error PyErr.typeError
  else Except.error PyErr.typeError

/-- Conversion loop of `Trip.get_flight_segments` over one segment dict's
`change_history` value: dict elements become `ChangeEntry` objects, other
elements pass through. -/
def convertChangeHistory : List PyVal → Except PyErr (List PyVal)
  | [] => Except.ok []
  | c :: rest => do
      let c' ← match c with
        | PyVal.pyDict d => mkChangeEntry d
        | other => Except.ok other
      let rest' ← convertChangeHistory rest
      pure (c' :: rest')

/-- Per-segment body of `Trip.get_flight_segments`: a dict segment with a
`change_history` key has that key REASSIGNED IN PLACE to the converted list
before the `FlightSegment` is built; the possibly mutated segment value is
returned alongside the outcome.  A non-dict segment is skipped. -/
def processSegment (seg : PyVal) : PyVal × Except PyErr (Option FlightSegment) :=
  match seg with
  | PyVal.pyDict d =>
      match assocGet "change_history" d with
      | some ch =>
          (match pyIterate ch with
           | none => (seg, Except.error PyErr.typeError)
           | some items =>
               match convertChangeHistory items with
               | Except.error e => (seg, Except.error e)
               | Except.ok items' =>
                   let d' := assocSet "change_history" (PyVal.pyList items') d
                   (PyVal.pyDict d',
                     (mkFlightSegment d').map (fun fs => some fs)))
      | none => (seg, (mkFlightSegment d).map (fun fs => some fs))
  | _ => (seg, Except.ok none)

/-- Loop of `Trip.get_flight_segments` over the elements of one extension's
`segments` value: returns the (possibly mutated) elements together with the
collected segments or the first error; mutations made before an error
persist. -/
def processSegmentList : List PyVal → List PyVal × Except PyErr (List FlightSegment)
  | [] => ([], Except.ok [])
  | seg :: rest =>
      match processSegment seg with
      | (seg', Except.error e) => (seg' :: rest, Except.error e)
      | (seg', Except.ok o) =>
          match processSegmentList rest with
          | (rest', Except.error e) => (seg' :: rest', Except.error e)
          | (rest', Except.ok fss) =>
              (seg' :: rest', Except.ok ((o.elim [] (fun fs => [fs])) ++ fss))

/-- Outer loop of `Trip.get_flight_segments` over the extensions map: only
dict extensions containing a `segments` key contribute; their `segments`
elements are processed (and mutated) in place. -/
def processExtensions :
    List (String × PyVal) → List (String × PyVal) × Except PyErr (List FlightSegment)
  | [] => ([], Except.ok [])
  | (ns, data) :: rest =>
      match data with
      | PyVal.pyDict kvs =>
          match assocGet "segments" kvs with
          | some segsVal =>
              (match pyIterate segsVal with
               | none => ((ns, data) :: rest, Except.error PyErr.typeError)
               | some elems =>
                   let (elems', res) := processSegmentList elems
                   let data' := PyVal.pyDict (assocSet "segments"
                     (match segsVal with
                      | PyVal.pyList _ => PyVal.pyList elems'
                      | other => other) kvs)
                   match res with
                   | Except.error e => ((ns, data') :: rest, Except.error e)
                   | Except.ok fss =>
                       match processExtensions rest with
                       | (rest', Except.error e) => ((ns, data') :: rest', Except.error e)
                       | (rest', Except.ok fss') =>
                           ((ns, data') :: rest', Except.ok (fss ++ fss')))
          | none =>
              let (rest', res) := processExtensions rest
              ((ns, data) :: rest', res)
      | _ =>
          let (rest', res) := processExtensions rest
          ((ns, data) :: rest', res)

/-- Derived accessor `Trip.get_flight_segments`.  Because the per-segment
conversion assigns into the segment dicts held by the extensions map, the
call returns the resulting trip state alongside the outcome. -/
def getFlightSegments (t : Trip) : Except PyErr (List FlightSegment) × Trip :=
  let (exts', res) := processExtensions t.extensions
  (res, { t with extensions := exts' })

/-- Substring containment on character lists (Python `in` on strings). -/
def listContainsSub (needle : List Char) : List Char → Bool
  | [] => needle.isEmpty
  | c :: cs => needle.isPrefixOf (c :: cs) || listContainsSub needle cs

/-- Derived accessor `Trip.get_hotel_bookings`: the `hotel_booking`
extension first, then every other namespace whose lowercased name contains
"hotel".  It reads the extensions map only. -/
def getHotelBookings (t : Trip) : List PyVal :=
  (match assocGet "hotel_booking" t.extensions with
   | some v => [v]
   | none => []) ++
  (t.extensions.filter (fun kv =>
      listContainsSub "hotel".toList (lowerStr kv.1).toList ∧ kv.1 ≠ "hotel_booking")).map
    (·.2)

/-- Dedup-preserving accumulation modelling the `set` of airports (CPython
set iteration order is unspecified; the model keeps first-seen order). -/
def dedupAppend (acc : List PyVal) (seen : List PyVal) : List PyVal :=
  match seen with
  | [] => acc
  | v :: rest => dedupAppend (if airportMem v acc then acc else acc ++ [v]) rest
where
  /-- Membership by structural equality on the airport values collected
  here (always strings in practice). -/
  airportMem (v : PyVal) : List PyVal → Bool
    | [] => false
    | w :: ws =>
        (match v, w with
         | PyVal.pyStr a, PyVal.pyStr b => a = b
         | _, _ => false) || airportMem v ws

/-- Airport values contributed by one flight segment in
`Trip.get_all_airports`: the `airport` keys of dict-valued `departure` and
`arrival` members. -/
def segmentAirports (fs : FlightSegment) : List PyVal :=
  (match fs.departure with
   | PyVal.pyDict d => (assocGet "airport" d).elim [] (fun v => [v])
   | _ => []) ++
  (match fs.arrival with
   | PyVal.pyDict d => (assocGet "airport" d).elim [] (fun v => [v])
   | _ => [])

/-- Derived accessor `Trip.get_all_airports`: it calls
`get_flight_segments` (inheriting its in-place mutation) and collects the
departure/arrival airport codes into a set. -/
def getAllAirports (t : Trip) : Except PyErr (List PyVal) × Trip :=
  match getFlightSegments t with
  | (Except.error e, t') => (Except.error e, t')
  | (Except.ok fss, t') =>
      (Except.ok (fss.foldl (fun acc fs => dedupAppend acc (segmentAirports fs)) []),
        t')

/-- One stored DynamoDB item: an attribute map. -/
abbrev Item := List (String × PyVal)

/-- The `trips` table, keyed by the string `trip_id` attribute. -/
abbrev Store := List (String × Item)

/-- Python `dict.setdefault(k, v)`. -/
def setdefault (k : String) (v : PyVal) (d : Item) : Item :=
  if (assocGet k d).isSome then d else d ++ [(k, v)]

/-- Trip creation from `TripsService.create_trip`: require a `trip_id`
(the `ValueError` lands in the blanket `except` and yields `False`), fill
the defaulted attributes and an initial version-history row, then
`put_item` — an UNCONDITIONAL write that overwrites any existing item with
the same key.  A non-string `trip_id` is rejected by DynamoDB
(`ClientError`, also `False`). -/
def createTrip (store : Store) (trip_data : Item) (now : String) : Bool × Store :=
  match assocGet "trip_id" trip_data with
  | none => (false, store)
  | some tidVal =>
      let d := setdefault "version" (PyVal.pyInt 1) trip_data
      let d := setdefault "updated_at" (PyVal.pyStr now) d
      let d := setdefault "status" (PyVal.pyStr "confirmed") d
      let d := setdefault "origin_type" (PyVal.pyStr "explicit") d
      let d := setdefault "trip_confidence" (PyVal.pyRat 1) d
      let d :=
        if (assocGet "version_history" d).isSome then d
        else d ++ [("version_history", PyVal.pyList [PyVal.pyDict
          [("version", PyVal.pyInt 1),
           ("timestamp", PyVal.pyStr now),
           ("changes", PyVal.pyList [PyVal.pyStr "trip created"]),
           ("source", (assocGet "source" d).getD (PyVal.pyStr "manual"))]])]
      match tidVal with
      | PyVal.pyStr tid => (true, assocPut tid d store)
      | _ => (false, store)

/-- Version attribute of a stored item, as `update_trip` reads it:
`current_trip.get('version', 1)`.  A non-integer stored version makes the
subsequent increment raise (caught by the blanket `except`), modelled as
`none`. -/
def itemVersion (item : Item) : Option Int :=
  match assocGet "version" item with
  | some (PyVal.pyInt n) => some n
  | none => some 1
  | some _ => none

/-- Read phase of `TripsService.update_trip`: fetch the item and take its
current version.  `none` is every path on which the source returns `False`
before writing (item absent — or falsy — or version unusable). -/
def updateTripRead (store : Store) (tid : String) : Option Int :=
  match assocGet tid store with
  | none => none
  | some item => if item.isEmpty then none else itemVersion item

/-- DynamoDB `SET` on a document path inside a map value: intermediate
segments must already exist as maps (`ClientError` otherwise), the final
segment is created or replaced. -/
def setNestedVal (kvs : List (String × PyVal)) (ks : List String) (v : PyVal) :
    Option (List (String × PyVal)) :=
  match ks with
  | [] => none
  | [k] => some (assocPut k v kvs)
  | k :: rest =>
      match assocGet k kvs with
      | some (PyVal.pyDict inner) =>
          (setNestedVal inner rest v).map (fun inner' =>
            assocSet k (PyVal.pyDict inner') kvs)
      | _ => none

/-- Field-update loop of `update_trip`: protected fields are skipped, a
dotted field updates a nested document path, anything else sets a top-level
attribute; each applied field contributes a change-list line. -/
def applyFieldUpdates (item : Item) :
    List (String × PyVal) → Option (Item × List String)
  | [] => some (item, [])
  | (field, value) :: rest =>
      if field ∈ ["trip_id", "version", "updated_at"] then
        applyFieldUpdates item rest
      else
        let item' :=
          if (field.toList.contains '.') then
            setNestedVal item ((splitOnChar '.' field.toList).map String.mk) value
          else
            some (assocPut field value item)
        match item' with
        | none => none
        | some it =>
            (applyFieldUpdates it rest).map (fun p =>
              (p.1, (field ++ " updated") :: p.2))

/-- Write phase of `TripsService.update_trip`: one `update_item` setting
the incremented version, the timestamp, the requested fields, and
`list_append` on `version_history`.  There is NO condition expression: the
write is applied whatever the stored version is at write time.  `none` is a
`ClientError` (absent item or bad `version_history`), on which the source
returns `False`. -/
def updateTripWrite (store : Store) (tid : String) (newVersion : Int)
    (updates : List (String × PyVal)) (changeReason now : String) : Option Store :=
  match assocGet tid store with
  | none => none
  | some item =>
      let item := assocPut "version" (PyVal.pyInt newVersion) item
      let item := assocPut "updated_at" (PyVal.pyStr now) item
      match applyFieldUpdates item updates with
      | none => none
      | some (item, changeList) =>
          let entry := PyVal.pyDict
            [("version", PyVal.pyInt newVersion),
             ("timestamp", PyVal.pyStr now),
             ("changes", PyVal.pyList (changeList.map PyVal.pyStr)),
             ("source", PyVal.pyStr changeReason)]
          match assocGet "version_history" item with
          | some (PyVal.pyList l) =>
              some (assocSet tid
                (assocSet "version_history" (PyVal.pyList (l ++ [entry])) item) store)
          | _ => none

/-- Trip update from `TripsService.update_trip`: read the current version,
bump it by one, write unconditionally.  The function takes no expected
version and can never report a version conflict. -/
def updateTrip (store : Store) (tid : String) (updates : List (String × PyVal))
    (changeReason now : String) : Bool × Store :=
  match updateTripRead store tid with
  | none => (false, store)
  | some cv =>
      match updateTripWrite store tid (cv + 1) updates changeReason now with
      | none => (false, store)
      | some s' => (true, s')

/-! Concrete instances used by the claim theorems and witnesses. -/

/-- Scenario document of spec §8: one Southwest itinerary under the `air`
namespace. -/
def c6doc : PyVal := PyVal.pyDict [("air", PyVal.pyDict [("southwest", PyVal.pyDict
  [("confirmation_code", PyVal.pyStr "ABC123"),
   ("segments", PyVal.pyList [PyVal.pyDict [("flight_number", PyVal.pyStr "SW1234")]])])])]

/-- One-field document for the percentage-consistency witness. -/
def docW : PyVal := PyVal.pyDict [("a", PyVal.pyStr "zz")]

/-- Statistics of the witness entry after one occurrence of `zz`. -/
def stW : FieldStatistics :=
  { min_length := some 2, max_length := some 2, avg_length := some 2,
    unique_values_count := 0, most_common_values := ["zz"] }

/-- The entry that ingesting `docW` as document `d1` produces for path `a`. -/
def eW : FieldRegistryEntry :=
  { field_id := "a", path := "a", field_name := "a", data_type := "string",
    inferred_type := "unknown", type_confidence := 3/5, source_namespace := "a",
    first_seen := "t0", last_seen := "t0", occurrence_count := 1, total_documents := 1,
    occurrence_percentage := 100, description := "", is_required := false,
    is_indexed := false, is_searchable := true,
    examples := [{ value := "zz", source_document_id := "d1", extracted_at := "t0" }],
    statistics := stW, tags := [], stability := "stable" }

/-- The registry state after ingesting `docW` into a fresh registry. -/
def rW : FieldRegistry :=
  { fields := [("a", eW)], namespaces := ["a"], total_documents_processed := 1 }

/-- Statistics of an entry after a single occurrence of the value `abc`. -/
def stAbc : FieldStatistics := updateStatistics {} "abc" 1

/-- Entry holding `stAbc` with one recorded occurrence, for the C9
counterexample at the `add_occurrence` level. -/
def eAbc : FieldRegistryEntry :=
  { newEntry "note" "note" "" "" "t0" with
    data_type := "string", type_confidence := 3/5,
    occurrence_count := 1, total_documents := 1, occurrence_percentage := 100,
    statistics := stAbc,
    examples := [{ value := "abc", source_document_id := "d1", extracted_at := "t0" }] }

/-- Entry whose type has already been fixed to `email`, for the
first-classification-wins witness. -/
def eEmail : FieldRegistryEntry :=
  { newEntry "contact" "contact" "crm" "" "t0" with
    data_type := "email", type_confidence := 9/10 }

/-- Stored item for the optimistic-concurrency scenario: trip `trip-1` at
version 1 with its creation history row. -/
def tripItem1 : Item :=
  [("trip_id", PyVal.pyStr "trip-1"), ("version", PyVal.pyInt 1),
   ("updated_at", PyVal.pyStr "t0"), ("status", PyVal.pyStr "confirmed"),
   ("origin_type", PyVal.pyStr "explicit"), ("trip_confidence", PyVal.pyRat 1),
   ("version_history", PyVal.pyList [PyVal.pyDict
      [("version", PyVal.pyInt 1), ("timestamp", PyVal.pyStr "t0"),
       ("changes", PyVal.pyList [PyVal.pyStr "trip created"]),
       ("source", PyVal.pyStr "manual")]])]

/-- Store holding only `tripItem1`. -/
def store1 : Store := [("trip-1", tripItem1)]

/-- Stored item for the duplicate-create scenario: trip `trip-1` already at
version 7. -/
def tripItem4 : Item :=
  [("trip_id", PyVal.pyStr "trip-1"), ("version", PyVal.pyInt 7),
   ("purpose", PyVal.pyStr "original"),
   ("version_history", PyVal.pyList [])]

/-- Store holding only `tripItem4`. -/
def store4 : Store := [("trip-1", tripItem4)]

/-- Observation: the integer `version` attribute of a stored trip. -/
def storedVersion (s : Store) (tid : String) : Option Int :=
  (assocGet tid s).bind (fun item =>
    match assocGet "version" item with
    | some (PyVal.pyInt n) => some n
    | _ => none)

/-- Observation: a string attribute of a stored trip. -/
def storedAttr (s : Store) (tid attr : String) : Option String :=
  (assocGet tid s).bind (fun item =>
    match assocGet attr item with
    | some (PyVal.pyStr v) => some v
    | _ => none)

/-- Change-history dict inside the C5 segment. -/
def chDict : List (String × PyVal) :=
  [("change_type", PyVal.pyStr "modification"), ("changed_at", PyVal.pyStr "t1"),
   ("source_document_id", PyVal.pyStr "doc-9"),
   ("previous_values", PyVal.pyDict []), ("change_reason", PyVal.pyStr "time change")]

/-- Well-formed flight-segment dict carrying a change history. -/
def segDict : List (String × PyVal) :=
  [("segment_id", PyVal.pyStr "seg-1"), ("version", PyVal.pyInt 1),
   ("status", PyVal.pyStr "confirmed"), ("flight_number", PyVal.pyStr "SW1234"),
   ("departure", PyVal.pyDict [("airport", PyVal.pyStr "AUS")]),
   ("arrival", PyVal.pyDict [("airport", PyVal.pyStr "LAX")]),
   ("change_history", PyVal.pyList [PyVal.pyDict chDict])]

/-- The same segment dict after `get_flight_segments` has reassigned its
`change_history` key in place. -/
def segDictMutated : List (String × PyVal) :=
  assocSet "change_history"
    (PyVal.pyList [PyVal.pyChangeEntry (PyVal.pyStr "modification") (PyVal.pyStr "t1")
      (PyVal.pyStr "doc-9") (PyVal.pyDict []) (PyVal.pyStr "time change") PyVal.pyNone])
    segDict

/-- Trip with one airline extension holding `segDict`. -/
def tripC5 : Trip :=
  addExtension (mkTrip "trip-5" "t0") "southwest_itinerary"
    (PyVal.pyDict [("segments", PyVal.pyList [PyVal.pyDict segDict])]) "t1"

/-- Repr of an extensions map, used to separate unequal extension maps by
a decidable observation. -/
def extsRepr (l : List (String × PyVal)) : String :=
  PyVal.pyRepr (PyVal.pyDict l)

/-! Helper lemmas shared by the claim theorems. -/

/-- Inversion of a successful `Except` bind. -/
theorem exceptBind_ok {α β : Type} {x : Except PyErr α} {f : α → Except PyErr β} {b : β}
    (h : x >>= f = Except.ok b) : ∃ a, x = Except.ok a ∧ f a = Except.ok b := by
  cases x with
  | error e => simp [Bind.bind, Except.bind] at h
  | ok a => exact ⟨a, rfl, by simpa [Bind.bind, Except.bind] using h⟩

theorem registerField_total {r : FieldRegistry} {path : String} {value : PyVal}
    {document_id namespace_ description now : String} {r' : FieldRegistry}
    (h : registerField r path value document_id namespace_ description now = Except.ok r') :
    r'.total_documents_processed = r.total_documents_processed := by
  unfold registerField at h
  dsimp only at h
  repeat' split at h
  all_goals
    first
      | (cases h; rfl)
      | (obtain ⟨e', he', hp⟩ := exceptBind_ok h; cases hp; rfl)

theorem registerHeadItems_total {items : List (String × PyVal)}
    {pre ns document_id now : String} {r r' : FieldRegistry}
    (h : registerHeadItems r items pre ns document_id now = Except.ok r') :
    r'.total_documents_processed = r.total_documents_processed := by
  induction items generalizing r with
  | nil => cases h; rfl
  | cons kv rest ih =>
      obtain ⟨k, v⟩ := kv
      unfold registerHeadItems at h
      obtain ⟨r₁, h₁, h₂⟩ := exceptBind_ok h
      rw [ih h₂, registerField_total h₁]

theorem registerNested_total :
    ∀ (r : FieldRegistry) (data : PyVal) (pre ns document_id now : String)
      (r' : FieldRegistry),
      registerNested r data pre ns document_id now = Except.ok r' →
      r'.total_documents_processed = r.total_documents_processed := by
  refine registerNested.induct
    (fun r data pre ns document_id now => ∀ r',
      registerNested r data pre ns document_id now = Except.ok r' →
      r'.total_documents_processed = r.total_documents_processed)
    (fun r items pre ns document_id now => ∀ r',
      registerDictItems r items pre ns document_id now = Except.ok r' →
      r'.total_documents_processed = r.total_documents_processed)
    ?_ ?_ ?_ ?_ ?_ ?_ ?_ ?_
  · intro r pre ns did now items ih r' h
    rw [registerNested] at h
    exact ih r' h
  · intro r pre ns did now tail items r' h
    rw [registerNested] at h
    exact registerHeadItems_total h
  · intro r pre ns did now hd tail hnd r' h
    rw [registerNested] at h
    all_goals first
      | assumption
      | (cases h; rfl)
  · intro t r pre ns did now h1 h2 r' h
    rw [registerNested] at h
    all_goals first
      | assumption
      | (cases h; rfl)
  · intro r pre ns did now r' h
    simp only [registerDictItems] at h
    cases h; rfl
  · intro r pre ns did now k kvs fp cns a ih1 ih2 r' h
    simp only [registerDictItems] at h
    obtain ⟨r₁, h₁, h₂⟩ := exceptBind_ok h
    obtain ⟨r₂, h₃, h₄⟩ := exceptBind_ok h₂
    rw [ih2 r₂ r' h₄, ih1 r₁ r₂ h₃, registerField_total h₁]
  · intro r pre ns did now k kvs fp cns a ih1 ih2 r' h
    simp only [registerDictItems] at h
    obtain ⟨r₁, h₁, h₂⟩ := exceptBind_ok h
    obtain ⟨r₂, h₃, h₄⟩ := exceptBind_ok h₂
    rw [ih2 r₂ r' h₄, ih1 r₁ r₂ h₃, registerField_total h₁]
  · intro r pre ns did now k v kvs hv1 hv2 ih r' h
    simp only [registerDictItems] at h
    split at h
    all_goals first
      | (exact absurd rfl (hv1 _))
      | (exact absurd rfl (hv2 _))
      | (obtain ⟨r₁, h₁, h₂⟩ := exceptBind_ok h
         rw [ih r₁ r' h₂, registerField_total h₁])


theorem assocGet_map (g : FieldRegistryEntry → FieldRegistryEntry)
    (l : List (String × FieldRegistryEntry)) (p : String) :
    assocGet p (l.map (fun ke => (ke.1, g ke.2))) = (assocGet p l).map g := by
  induction l with
  | nil => rfl
  | cons kv rest ih =>
      obtain ⟨k, e⟩ := kv
      simp only [List.map, assocGet]
      split <;> simp [ih]

theorem updateAllPercentages_spec {r : FieldRegistry}
    (hpos : 0 < r.total_documents_processed) {p : String} {e : FieldRegistryEntry}
    (h : assocGet p (updateAllPercentages r).fields = some e) :
    e.occurrence_percentage =
      (e.occurrence_count : ℚ) / (r.total_documents_processed : ℚ) * 100 := by
  unfold updateAllPercentages at h
  dsimp only at h
  rw [assocGet_map] at h
  cases hv : assocGet p r.fields with
  | none => rw [hv] at h; simp at h
  | some e₀ =>
      rw [hv] at h
      cases h
      simp [refreshEntry, if_pos hpos, updateStability]

theorem registerDocumentFields_spec {r : FieldRegistry} {d : PyVal}
    {document_id now : String} {r' : FieldRegistry}
    (h : registerDocumentFields r d document_id now = Except.ok r') :
    r'.total_documents_processed = r.total_documents_processed + 1 ∧
    ∀ p e, assocGet p r'.fields = some e →
      e.occurrence_percentage =
        (e.occurrence_count : ℚ) / (r'.total_documents_processed : ℚ) * 100 := by
  unfold registerDocumentFields at h
  obtain ⟨r₂, h₂, h₃⟩ := exceptBind_ok h
  cases h₃
  have ht₂ : r₂.total_documents_processed = r.total_documents_processed + 1 :=
    registerNested_total _ _ _ _ _ _ _ h₂
  have htot : (updateAllPercentages r₂).total_documents_processed =
      r.total_documents_processed + 1 := by
    simpa [updateAllPercentages] using ht₂
  refine ⟨htot, fun p e he => ?_⟩
  have hpos : 0 < r₂.total_documents_processed := by omega
  rw [updateAllPercentages_spec hpos he, htot, ht₂]

theorem ingestAll_spec (now : String) :
    ∀ (docs : List (PyVal × String)) (r₀ r : FieldRegistry),
      ingestAll r₀ now docs = Except.ok r →
      r.total_documents_processed = r₀.total_documents_processed + docs.length ∧
      (docs ≠ [] → ∀ p e, assocGet p r.fields = some e →
        e.occurrence_percentage =
          (e.occurrence_count : ℚ) / (r.total_documents_processed : ℚ) * 100) := by
  intro docs
  induction docs with
  | nil =>
      intro r₀ r h
      cases h
      simp
  | cons dd rest ih =>
      intro r₀ r h
      obtain ⟨d, did⟩ := dd
      unfold ingestAll at h
      obtain ⟨r₁, h₁, h₂⟩ := exceptBind_ok h
      obtain ⟨hT1, hP1⟩ := registerDocumentFields_spec h₁
      obtain ⟨hT, hP⟩ := ih r₁ r h₂
      refine ⟨by rw [hT, hT1]; simp; omega, fun _ => ?_⟩
      cases rest with
      | nil =>
          cases h₂
          exact hP1
      | cons d2 rest2 => exact hP (by simp)

/-! Claim theorems. -/

/-- C10: calling `FieldRegistry.register_field` directly on a freshly
constructed registry — while `total_documents_processed = 0`, before any
`register_document_fields` call — divides by zero in the percentage
computation of `add_occurrence`, so for every path, value and document id
the call raises `ZeroDivisionError` instead of returning an entry. -/
theorem registerField_fresh_registry_raises (path : String) (value : PyVal)
    (document_id namespace_ description now : String) :
    registerField emptyRegistry path value document_id namespace_ description now =
      Except.error PyErr.zeroDivisionError := by
  unfold registerField emptyRegistry
  simp [assocGet, addOccurrence, Bind.bind, Except.bind]

/-- Witness for `registerField_fresh_registry_raises` at a concrete path
and value. -/
theorem registerField_fresh_registry_raises_witness :
    registerField emptyRegistry "air" (PyVal.pyStr "x") "doc-1" "air" "" "t0" =
      Except.error PyErr.zeroDivisionError :=
  registerField_fresh_registry_raises "air" (PyVal.pyStr "x") "doc-1" "air" "" "t0"

/-- C8: stability is derived from `occurrence_percentage` by exact
thresholds — `stable` iff the percentage is at least 80, `common` iff it is
in `[40, 80)`, `occasional` iff in `[10, 40)`, and `rare` otherwise; in
particular exactly 80 percent classifies as `stable` and 79.999 percent as
`common`. -/
theorem stability_thresholds (e : FieldRegistryEntry) :
    ((updateStability e).stability = "stable" ↔ 80 ≤ e.occurrence_percentage) ∧
    ((updateStability e).stability = "common" ↔
      40 ≤ e.occurrence_percentage ∧ e.occurrence_percentage < 80) ∧
    ((updateStability e).stability = "occasional" ↔
      10 ≤ e.occurrence_percentage ∧ e.occurrence_percentage < 40) ∧
    ((updateStability e).stability = "rare" ↔ e.occurrence_percentage < 10) ∧
    (e.occurrence_percentage = 80 → (updateStability e).stability = "stable") ∧
    (e.occurrence_percentage = 79999/1000 → (updateStability e).stability = "common") := by
  unfold updateStability
  split_ifs with h1 h2 h3 <;>
    refine ⟨?_, ?_, ?_, ?_, ?_, ?_⟩ <;>
    simp_all <;> first | linarith | (intro hh; linarith)

/-- Witness for `stability_thresholds`: an entry at exactly 80 percent is
`stable`, one at 79.999 percent is `common`. -/
theorem stability_thresholds_witness :
    (updateStability { eW with occurrence_percentage := 80 }).stability = "stable" ∧
    (updateStability { eW with occurrence_percentage := 79999/1000 }).stability =
      "common" :=
  ⟨(stability_thresholds _).2.2.2.2.1 rfl, (stability_thresholds _).2.2.2.2.2 rfl⟩

/-- C7: once `data_type` has been set to a value other than `unknown`, no
subsequent `add_occurrence` call overwrites it (inference runs only while
the type is still `unknown`); in particular an entry whose first observed
value is an email and whose second observed value is a plain string still
has `data_type = email` after the second occurrence. -/
theorem first_classification_wins :
    (∀ (e : FieldRegistryEntry) (document_id : String) (value : PyVal)
        (total_docs : Option Nat) (now : String),
        e.data_type ≠ "unknown" →
        (addOccurrence e document_id value total_docs now).map
            FieldRegistryEntry.data_type =
          (addOccurrence e document_id value total_docs now).map
            (fun _ => e.data_type)) ∧
    (addOccurrence (newEntry "contact" "contact" "crm" "" "t0") "d1"
        (PyVal.pyStr "alice@example.com") (some 1) "t1").map
        FieldRegistryEntry.data_type = Except.ok "email" ∧
    ((do
        let e1 ← addOccurrence (newEntry "contact" "contact" "crm" "" "t0") "d1"
          (PyVal.pyStr "alice@example.com") (some 1) "t1"
        addOccurrence e1 "d2" (PyVal.pyStr "just some text") (some 2) "t2") :
      Except PyErr FieldRegistryEntry).map FieldRegistryEntry.data_type =
      Except.ok "email" := by
  refine ⟨fun e document_id value total_docs now h => ?_, by decide, by decide⟩
  unfold addOccurrence
  cases total_docs with
  | none => simp [updateStability, Bind.bind, Except.bind, pure, Except.pure, Except.map, h,
      apply_ite FieldRegistryEntry.data_type]
  | some t =>
      by_cases ht : t = 0 <;>
        simp [ht, updateStability, Bind.bind, Except.bind, pure, Except.pure, throw,
          throwThe, MonadExceptOf.throw, Except.map, h, apply_ite FieldRegistryEntry.data_type]

/-- Witness for `first_classification_wins` at the concrete entry `eEmail`
(already typed `email`). -/
theorem first_classification_wins_witness :
    (addOccurrence eEmail "d9" (PyVal.pyStr "plain text") (some 2) "t3").map
        FieldRegistryEntry.data_type =
      (addOccurrence eEmail "d9" (PyVal.pyStr "plain text") (some 2) "t3").map
        (fun _ => eEmail.data_type) :=
  first_classification_wins.1 eEmail "d9" (PyVal.pyStr "plain text") (some 2) "t3"
    (by decide)

/-- Running average stored in `stAbc`. -/
theorem stAbc_avg : stAbc.avg_length = some 3 := by
  have habc : ("abc" : String) ≠ "" := by decide
  simp [stAbc, updateStatistics, habc]
  rw [show ("abc" : String).length = 3 from rfl]
  norm_num

/-- C9 counterexample: appending the empty string leaves the statistics
untouched — `_update_statistics` returns immediately on a falsy value — so
`min_length` does not come to bound `len(v) = 0` and the running average is
not recomputed by the claimed formula. -/
theorem statistics_empty_value_cex :
    (addOccurrence eAbc "d2" (PyVal.pyStr "") (some 2) "t2").map
        FieldRegistryEntry.statistics = Except.ok stAbc ∧
    updateStatistics stAbc "" 2 = stAbc ∧
    stAbc.min_length = some 3 ∧
    ¬ (3 ≤ ("" : String).length) ∧
    stAbc.avg_length = some 3 ∧
    (3 : ℚ) ≠ (3 * ((2 : ℚ) - 1) + (("" : String).length : ℚ)) / 2 := by
  exact ⟨rfl, rfl, rfl, by decide, stAbc_avg, by norm_num⟩

/-- C9 amended: for every NONEMPTY string value appended, the tracker
updates `min_length`/`max_length` to bound the value's length and
recomputes the running average as `(avg*(n-1) + len) / n` with `n` the
occurrence count after the increment (initializing the average to the
length when none was stored); appending the empty string leaves the
statistics unchanged. -/
theorem statistics_update_amended (st : FieldStatistics) (v : String) (n : Nat)
    (hv : v ≠ "") :
    (∃ m, (updateStatistics st v n).min_length = some m ∧ m ≤ v.length) ∧
    (∃ M, (updateStatistics st v n).max_length = some M ∧ v.length ≤ M) ∧
    (∀ a, st.avg_length = some a →
        (updateStatistics st v n).avg_length =
          some ((a * ((n : ℚ) - 1) + (v.length : ℚ)) / (n : ℚ))) ∧
    (st.avg_length = none →
        (updateStatistics st v n).avg_length = some (v.length : ℚ)) ∧
    updateStatistics st "" n = st := by
  refine ⟨?_, ?_, ?_, ?_, by simp [updateStatistics]⟩
  · simp only [updateStatistics, if_neg hv,
      apply_ite FieldStatistics.min_length, ite_self]
    cases hm : st.min_length with
    | none => exact ⟨v.length, by simp, le_refl _⟩
    | some m0 =>
        by_cases hlt : v.length < m0
        · exact ⟨v.length, by simp [hlt], le_refl _⟩
        · exact ⟨m0, by simp [hlt], by omega⟩
  · simp only [updateStatistics, if_neg hv,
      apply_ite FieldStatistics.max_length, ite_self]
    cases hm : st.max_length with
    | none => exact ⟨v.length, by simp, le_refl _⟩
    | some m0 =>
        by_cases hlt : v.length > m0
        · exact ⟨v.length, by simp [hlt], le_refl _⟩
        · exact ⟨m0, by simp [hlt], by omega⟩
  · intro a ha
    simp only [updateStatistics, if_neg hv,
      apply_ite FieldStatistics.avg_length, ite_self, ha]
  · intro ha
    simp only [updateStatistics, if_neg hv,
      apply_ite FieldStatistics.avg_length, ite_self, ha]

/-- Witness for `statistics_update_amended` at the statistics `stAbc` and
the two-character value `xy`, with the average recomputed over count 2. -/
theorem statistics_update_amended_witness :
    (updateStatistics stAbc "xy" 2).avg_length =
      some ((3 * ((2 : ℚ) - 1) + (("xy" : String).length : ℚ)) / 2) :=
  (statistics_update_amended stAbc "xy" 2 (by decide)).2.2.1 3 stAbc_avg

/-- C2 counterexample: the Trip constructor builds version 1 but an EMPTY
version history — there is no `creation` entry — and an `add_extension`
call does not increment the version, so both claimed equalities fail. -/
theorem fresh_trip_history_cex :
    (mkTrip "trip-1" "t0").version = 1 ∧
    (mkTrip "trip-1" "t0").version_history = [] ∧
    (mkTrip "trip-1" "t0").version_history.length ≠ 1 ∧
    (addExtension (mkTrip "trip-1" "t0") "southwest_itinerary"
        (PyVal.pyDict []) "t1").version = 1 ∧
    (addExtension (mkTrip "trip-1" "t0") "southwest_itinerary"
        (PyVal.pyDict []) "t1").version ≠ 1 + 1 := by
  exact ⟨rfl, rfl, by decide, rfl, by decide⟩

/-- Version and history-length bookkeeping of a mutating-call sequence:
only `add_version_entry` calls change either. -/
theorem applyMutations_version_spec (now : String) :
    ∀ (calls : List TripMutation) (t : Trip),
      (applyMutations t now calls).version =
        t.version + countVersionEntryCalls calls ∧
      (applyMutations t now calls).version_history.length =
        t.version_history.length + countVersionEntryCalls calls := by
  intro calls
  induction calls with
  | nil => intro t; simp [applyMutations, countVersionEntryCalls]
  | cons m ms ih =>
      intro t
      cases m <;>
        simp [applyMutations, applyMutation, addExtension, addSourceDocument,
          addVersionEntry, countVersionEntryCalls, ih]
      omega

/-- C2 amended: a freshly created trip has `version = 1` and an empty
version history; `add_extension` and `add_source_document` leave both
unchanged, and each `add_version_entry` call increments the version exactly
once and appends exactly one history row — so after a sequence containing M
`add_version_entry` calls, `version = 1 + M` and `len(version_history) = M`. -/
theorem trip_version_monotonicity_amended (trip_id now : String)
    (calls : List TripMutation) :
    (mkTrip trip_id now).version = 1 ∧
    (mkTrip trip_id now).version_history.length = 0 ∧
    (applyMutations (mkTrip trip_id now) now calls).version =
      1 + countVersionEntryCalls calls ∧
    (applyMutations (mkTrip trip_id now) now calls).version_history.length =
      countVersionEntryCalls calls := by
  obtain ⟨h1, h2⟩ := applyMutations_version_spec now calls (mkTrip trip_id now)
  exact ⟨rfl, rfl, by simpa [mkTrip] using h1, by simpa [mkTrip] using h2⟩

/-- Witness for `trip_version_monotonicity_amended` on a concrete sequence
with one extension write and two version entries. -/
theorem trip_version_monotonicity_amended_witness :
    (applyMutations (mkTrip "trip-9" "t0") "t1"
        [TripMutation.extension "sw" (PyVal.pyDict []),
         TripMutation.versionEntry "d1" "addition" ["sw"],
         TripMutation.versionEntry "d2" "modification" ["sw"]]).version = 1 + 2 ∧
    (applyMutations (mkTrip "trip-9" "t0") "t1"
        [TripMutation.extension "sw" (PyVal.pyDict []),
         TripMutation.versionEntry "d1" "addition" ["sw"],
         TripMutation.versionEntry "d2" "modification" ["sw"]]).version_history.length =
      2 := by
  have h := trip_version_monotonicity_amended "trip-9" "t0"
    [TripMutation.extension "sw" (PyVal.pyDict []),
     TripMutation.versionEntry "d1" "addition" ["sw"],
     TripMutation.versionEntry "d2" "modification" ["sw"]]
  exact ⟨by simpa [countVersionEntryCalls] using h.2.2.1,
    by simpa [countVersionEntryCalls] using h.2.2.2⟩

/-- C3: for every sequence of documents ingested from a fresh registry,
when the N-th `register_document_fields` call returns every entry in the
catalog — touched by the last document or not — satisfies
`occurrence_percentage = 100 * occurrence_count / N` against the current
corpus size N (the whole-catalog rescan recomputes every denominator). -/
theorem registry_percentage_consistency (docs : List (PyVal × String))
    (now : String) (r : FieldRegistry)
    (h : ingestAll emptyRegistry now docs = Except.ok r) :
    r.total_documents_processed = docs.length ∧
    ∀ p e, assocGet p r.fields = some e →
      e.occurrence_percentage =
        100 * (e.occurrence_count : ℚ) / (docs.length : ℚ) := by
  obtain ⟨hT, hP⟩ := ingestAll_spec now docs emptyRegistry r h
  have hT' : r.total_documents_processed = docs.length := by
    simpa [emptyRegistry] using hT
  refine ⟨hT', fun p e he => ?_⟩
  cases docs with
  | nil =>
      cases h
      simp [emptyRegistry, assocGet] at he
  | cons d rest =>
      have hx := hP (by simp) p e he
      rw [hx, hT', div_mul_eq_mul_div, mul_comm (e.occurrence_count : ℚ) 100]

set_option maxRecDepth 8000 in
set_option maxHeartbeats 4000000 in
/-- Witness for `registry_percentage_consistency`: ingesting the one-field
document `docW` yields the registry `rW`, whose single entry satisfies the
percentage equation with N = 1. -/
theorem registry_percentage_consistency_witness :
    rW.total_documents_processed = 1 ∧
    eW.occurrence_percentage = 100 * (eW.occurrence_count : ℚ) / 1 := by
  have hin : ingestAll emptyRegistry "t0" [(docW, "d1")] = Except.ok rW := by
    simp [docW, rW, eW, stW, ingestAll, registerDocumentFields, registerNested, registerDictItems,
    registerHeadItems, registerField, emptyRegistry, assocGet, assocSet, addOccurrence,
    newEntry, extractFieldName, pyReplace, replaceList, splitOnChar, updateStatistics,
    updateStability, inferDataType, pyStrip, pyStripList, isPySpace,
    isEmailStr, isPhoneStr, isAirportCodeStr, isConfirmationCodeStr, isCurrencyStr,
    isDateStr, isDatetimeStr, isNumberStr, isBooleanStr, lowerStr, upperStr,
    emailDomainTail, isEmailLocalChar, isEmailDomainChar,
    isPhone1, isPhone2, isPhone3, isPhone4, takeDigits, takeChar, skipSpaces,
    takeSpaces1, currencyAmountRests, isCurrencyWord, takeShortRun,
    isDate1, isDateSlashed, isDateMonthName, isDatetimeIso, isDatetimeSlashed,
    takeDigitsU, takeDigitsU.go, floatMantissa, PyVal.pyToStr, PyVal.pyRepr,
    PyVal.pyReprItems, PyVal.pyReprPairs, joinCommaSep, refreshEntry,
    updateAllPercentages, Bind.bind, Except.bind, pure, Except.pure, Except.map]
    refine ⟨by norm_num, ⟨rfl, ?_⟩, ?_⟩
    · rw [show ("zz" : String).length = 2 from rfl]; norm_num
    · intro hh; exact absurd hh (by norm_num)
  have h := registry_percentage_consistency [(docW, "d1")] "t0" rW hin
  refine ⟨h.1, ?_⟩
  have hx := h.2 "a" eW rfl
  simpa using hx

set_option maxRecDepth 8000 in
set_option maxHeartbeats 4000000 in
/-- C6 counterexample: `SW1234` is six alphanumeric characters containing
letters and digits, so the §4.1 cascade classifies the
`air.southwest.segments[].flight_number` field as `confirmation_code`
(checked before the `string` fallback), not `string` as the claim states. -/
theorem c6_flight_number_type_cex :
    (registerDocumentFields emptyRegistry c6doc "doc-1" "t0").map (fun r =>
        (assocGet "air.southwest.segments[].flight_number" r.fields).map
          (fun e => e.data_type)) = Except.ok (some "confirmation_code") ∧
    "confirmation_code" ≠ "string" := by
  constructor
  · simp [c6doc, ingestAll, registerDocumentFields, registerNested, registerDictItems,
    registerHeadItems, registerField, emptyRegistry, assocGet, assocSet, addOccurrence,
    newEntry, extractFieldName, pyReplace, replaceList, splitOnChar, updateStatistics,
    updateStability, inferDataType, pyStrip, pyStripList, isPySpace,
    isEmailStr, isPhoneStr, isAirportCodeStr, isConfirmationCodeStr, isCurrencyStr,
    isDateStr, isDatetimeStr, isNumberStr, isBooleanStr, lowerStr, upperStr,
    emailDomainTail, isEmailLocalChar, isEmailDomainChar,
    isPhone1, isPhone2, isPhone3, isPhone4, takeDigits, takeChar, skipSpaces,
    takeSpaces1, currencyAmountRests, isCurrencyWord, takeShortRun,
    isDate1, isDateSlashed, isDateMonthName, isDatetimeIso, isDatetimeSlashed,
    takeDigitsU, takeDigitsU.go, floatMantissa, PyVal.pyToStr, PyVal.pyRepr,
    PyVal.pyReprItems, PyVal.pyReprPairs, joinCommaSep, refreshEntry,
    updateAllPercentages, Bind.bind, Except.bind, pure, Except.pure, Except.map]
  · decide

set_option maxRecDepth 8000 in
set_option maxHeartbeats 4000000 in
/-- C6 amended: ingesting the scenario document yields exactly the five
fields `air`, `air.southwest`, `air.southwest.confirmation_code`
(type `confirmation_code`), `air.southwest.segments`, and
`air.southwest.segments[].flight_number` (type `confirmation_code`, by the
§4.1 precedence), each with `occurrence_count = 1`. -/
theorem c6_ingestion_scenario_amended :
    (registerDocumentFields emptyRegistry c6doc "doc-1" "t0").map (fun r =>
        r.fields.map (fun ke => (ke.1, ke.2.data_type, ke.2.occurrence_count)))
      = Except.ok [("air", "object", 1), ("air.southwest", "object", 1),
          ("air.southwest.confirmation_code", "confirmation_code", 1),
          ("air.southwest.segments", "array", 1),
          ("air.southwest.segments[].flight_number", "confirmation_code", 1)] := by
  simp [c6doc, ingestAll, registerDocumentFields, registerNested, registerDictItems,
    registerHeadItems, registerField, emptyRegistry, assocGet, assocSet, addOccurrence,
    newEntry, extractFieldName, pyReplace, replaceList, splitOnChar, updateStatistics,
    updateStability, inferDataType, pyStrip, pyStripList, isPySpace,
    isEmailStr, isPhoneStr, isAirportCodeStr, isConfirmationCodeStr, isCurrencyStr,
    isDateStr, isDatetimeStr, isNumberStr, isBooleanStr, lowerStr, upperStr,
    emailDomainTail, isEmailLocalChar, isEmailDomainChar,
    isPhone1, isPhone2, isPhone3, isPhone4, takeDigits, takeChar, skipSpaces,
    takeSpaces1, currencyAmountRests, isCurrencyWord, takeShortRun,
    isDate1, isDateSlashed, isDateMonthName, isDatetimeIso, isDatetimeSlashed,
    takeDigitsU, takeDigitsU.go, floatMantissa, PyVal.pyToStr, PyVal.pyRepr,
    PyVal.pyReprItems, PyVal.pyReprPairs, joinCommaSep, refreshEntry,
    updateAllPercentages, Bind.bind, Except.bind, pure, Except.pure, Except.map]

/-- C1 (code-bug evidence): `update_trip` takes no expected version and
issues no conditional write.  Starting from `trip-1` at version 1: both
writers read version 1; both write phases commit with `new_version = 2`;
the final stored version is 2, so the first update is silently lost; and
two full sequential calls both return `True` — no code path can report a
version conflict. -/
theorem updateTrip_lost_update :
    updateTripRead store1 "trip-1" = some 1 ∧
    ((updateTripWrite store1 "trip-1" (1 + 1) [("purpose", PyVal.pyStr "offsite")]
        "Manual update" "t1").bind (fun s1 =>
      (updateTripWrite s1 "trip-1" (1 + 1) [("purpose", PyVal.pyStr "summit")]
        "Manual update" "t2").bind (fun s2 => storedVersion s2 "trip-1"))) = some 2 ∧
    (updateTrip store1 "trip-1" [("purpose", PyVal.pyStr "offsite")]
        "Manual update" "t1").1 = true ∧
    (updateTrip ((updateTrip store1 "trip-1" [("purpose", PyVal.pyStr "offsite")]
          "Manual update" "t1").2) "trip-1" [("purpose", PyVal.pyStr "summit")]
        "Manual update" "t2").1 = true := by
  refine ⟨rfl, ?_, ?_, ?_⟩ <;> simp [createTrip, setdefault, updateTrip, updateTripRead, updateTripWrite,
    itemVersion, applyFieldUpdates, setNestedVal, assocGet, assocSet, assocPut,
    storedVersion, storedAttr, store1, tripItem1, store4, tripItem4, Option.bind]

/-- C4 (code-bug evidence): `create_trip` writes with an unconditional
`put_item`; creating a second trip with the colliding id `trip-1` returns
`True` and silently replaces the stored item (version 7 becomes 1, the
stored purpose changes), instead of failing with `AlreadyExists` and
leaving the stored trip unchanged. -/
theorem createTrip_overwrites :
    (createTrip store4 [("trip_id", PyVal.pyStr "trip-1"),
        ("purpose", PyVal.pyStr "replacement")] "t9").1 = true ∧
    storedVersion store4 "trip-1" = some 7 ∧
    storedVersion (createTrip store4 [("trip_id", PyVal.pyStr "trip-1"),
        ("purpose", PyVal.pyStr "replacement")] "t9").2 "trip-1" = some 1 ∧
    storedAttr store4 "trip-1" "purpose" = some "original" ∧
    storedAttr (createTrip store4 [("trip_id", PyVal.pyStr "trip-1"),
        ("purpose", PyVal.pyStr "replacement")] "t9").2 "trip-1" "purpose" =
      some "replacement" := by
  refine ⟨?_, rfl, ?_, rfl, ?_⟩ <;> simp [createTrip, setdefault, updateTrip, updateTripRead, updateTripWrite,
    itemVersion, applyFieldUpdates, setNestedVal, assocGet, assocSet, assocPut,
    storedVersion, storedAttr, store1, tripItem1, store4, tripItem4, Option.bind]

set_option maxRecDepth 8000 in
set_option maxHeartbeats 4000000 in
/-- C5 (code-bug evidence): on a trip whose airline extension carries a
segment with a `change_history` list of dicts, `get_flight_segments`
reassigns that key in place to a list of `ChangeEntry` objects — the trip's
extension data after the call differs from the data before it, and
`get_all_airports`, which calls `get_flight_segments`, inherits the
mutation. -/
theorem getFlightSegments_mutates :
    assocGet "southwest_itinerary" tripC5.extensions =
      some (PyVal.pyDict [("segments", PyVal.pyList [PyVal.pyDict segDict])]) ∧
    assocGet "southwest_itinerary" (getFlightSegments tripC5).2.extensions =
      some (PyVal.pyDict [("segments", PyVal.pyList [PyVal.pyDict segDictMutated])]) ∧
    (getFlightSegments tripC5).2.extensions ≠ tripC5.extensions ∧
    (getAllAirports tripC5).2.extensions ≠ tripC5.extensions := by
  refine ⟨?_, ?_, ?_, ?_⟩
  · simp [getFlightSegments, getAllAirports, processExtensions, processSegmentList,
      processSegment, convertChangeHistory, mkChangeEntry, mkFlightSegment, pyIterate,
      assocGet, assocSet, assocPut, addExtension, mkTrip, tripC5, segDict,
      segDictMutated, chDict, extsRepr, PyVal.pyRepr, PyVal.pyReprItems,
      PyVal.pyReprPairs, joinCommaSep, dedupAppend, segmentAirports,
      Bind.bind, Except.bind, pure, Except.pure, Except.map]
  · simp [getFlightSegments, getAllAirports, processExtensions, processSegmentList,
      processSegment, convertChangeHistory, mkChangeEntry, mkFlightSegment, pyIterate,
      assocGet, assocSet, assocPut, addExtension, mkTrip, tripC5, segDict,
      segDictMutated, chDict, extsRepr, PyVal.pyRepr, PyVal.pyReprItems,
      PyVal.pyReprPairs, joinCommaSep, dedupAppend, segmentAirports,
      Bind.bind, Except.bind, pure, Except.pure, Except.map]
  · exact fun h => absurd (congrArg extsRepr h) (by simp [getFlightSegments, getAllAirports, processExtensions, processSegmentList,
      processSegment, convertChangeHistory, mkChangeEntry, mkFlightSegment, pyIterate,
      assocGet, assocSet, assocPut, addExtension, mkTrip, tripC5, segDict,
      segDictMutated, chDict, extsRepr, PyVal.pyRepr, PyVal.pyReprItems,
      PyVal.pyReprPairs, joinCommaSep, dedupAppend, segmentAirports,
      Bind.bind, Except.bind, pure, Except.pure, Except.map,
      show toString (1 : Int) = "1" from rfl])
  · exact fun h => absurd (congrArg extsRepr h) (by simp [getFlightSegments, getAllAirports, processExtensions, processSegmentList,
      processSegment, convertChangeHistory, mkChangeEntry, mkFlightSegment, pyIterate,
      assocGet, assocSet, assocPut, addExtension, mkTrip, tripC5, segDict,
      segDictMutated, chDict, extsRepr, PyVal.pyRepr, PyVal.pyReprItems,
      PyVal.pyReprPairs, joinCommaSep, dedupAppend, segmentAirports,
      Bind.bind, Except.bind, pure, Except.pure, Except.map,
      show toString (1 : Int) = "1" from rfl])

end AgenticMVP
